import Mathlib

/-!
Verification of the real-time push-session subsystem of OctoPrint:
the class `PrinterStateConnection` in `src/octoprint/server/util.py`.

The embedding is shallow and sequential.  Python dictionaries are
association lists over `String` keys with opaque `Val` payloads; the
`with mutex:` blocks of the source make each method body atomic with
respect to the others, so the sequential model in which every method
runs to completion as one step is exactly the granularity the locks
enforce.  A network write `self.send(x)` is modelled as the value `x`
appended to the list of outbound writes returned by the method; the
lifecycle hooks `on_open` / `on_close`, whose bodies are sequences of
calls on external collaborators (producers, the event bus, the
timelapse module), are modelled as the ordered list of those calls.
-/

/-- Opaque JSON-like payload values: what the Python code passes around as
temperature samples, log lines, messages and frame payloads. -/
inductive Val where
  | str : String → Val
  | num : Int → Val
  | none : Val
  | list : List Val → Val
  | obj : List (String × Val) → Val

/-- A Python dict with string keys, as an association list (first binding of
a key is the live one, as duplicate keys cannot arise in a Python dict). -/
abbrev Dict := List (String × Val)

/-- Lookup of a key in a dict: first matching binding. -/
def dlookup : Dict → String → Option Val
  | [], _ => Option.none
  | (k', v) :: rest, k => if k' = k then some v else dlookup rest k

/-- The keys of a dict. -/
def keys (d : Dict) : List String := d.map (fun kv => kv.1)

/-- Setting one key of a Python dict: replace the binding in place if the key
is present, append a new binding otherwise (CPython `d[k] = v`). -/
def setKey : Dict → String → Val → Dict
  | [], k, v => [(k, v)]
  | (k', v') :: rest, k, v =>
      if k' = k then (k, v) :: rest else (k', v') :: setKey rest k v

/-- CPython `d.update(u)`: set every binding of `u` into `d`, in order,
overwriting existing keys. -/
def dictUpdate (d : Dict) (u : Dict) : Dict :=
  u.foldl (fun acc kv => setKey acc kv.1 kv.2) d

/-- The mutable state of one `PrinterStateConnection`: its three backlog
buffers (`self._temperatureBacklog`, `self._logBacklog`,
`self._messageBacklog`).  The mutexes guarding them make each method body
below one atomic step; they have no separate representation. -/
structure ConnState where
  _temperatureBacklog : List Val
  _logBacklog : List Val
  _messageBacklog : List Val

/-- The state `__init__` leaves behind: all three backlogs empty. -/
def initState : ConnState := ⟨[], [], []⟩

/-- The method `_emit(self, type, payload)`: `self.send({type: payload})`.
The outbound unit handed to the transport is the one-key dict
`{type: payload}`. -/
def _emit (type : String) (payload : Val) : Dict := [(type, payload)]

/-- The method `_emit`, with the transport write made explicit: the body is
exactly one call `self.send({type: payload})`, with no `try`/`except` and no
logging around it, so the session returns whatever the transport send
returns — including its failures. -/
def _emitSend {ε : Type} (send : Dict → Except ε Unit) (type : String)
    (payload : Val) : Except ε Unit :=
  send (_emit type payload)

/-- The method `addLog(self, data)`: append `data` to `self._logBacklog`
under the log mutex.  Returns the new state and the (empty) list of
outbound writes the call performs. -/
def addLog (s : ConnState) (data : Val) : ConnState × List Dict :=
  ({ s with _logBacklog := s._logBacklog ++ [data] }, [])

/-- The method `addMessage(self, data)`: append `data` to
`self._messageBacklog` under the message mutex. -/
def addMessage (s : ConnState) (data : Val) : ConnState × List Dict :=
  ({ s with _messageBacklog := s._messageBacklog ++ [data] }, [])

/-- The method `addTemperature(self, data)`: append `data` to
`self._temperatureBacklog` under the temperature mutex. -/
def addTemperature (s : ConnState) (data : Val) : ConnState × List Dict :=
  ({ s with _temperatureBacklog := s._temperatureBacklog ++ [data] }, [])

/-- The method `sendCurrentData(self, data)`: under each mutex in turn, take
the backlog and reset it to `[]`; then `data.update({...})` with the three
fixed keys, and `self._emit("current", data)`.  The middle component of the
result is the value of the caller's `data` object after the call (the dict
is updated in place, so the caller's object and the emitted payload are one
and the same). -/
def sendCurrentData (s : ConnState) (data : Dict) :
    ConnState × Dict × List Dict :=
  let temperatures := s._temperatureBacklog
  let s1 : ConnState := { s with _temperatureBacklog := [] }
  let logs := s1._logBacklog
  let s2 : ConnState := { s1 with _logBacklog := [] }
  let messages := s2._messageBacklog
  let s3 : ConnState := { s2 with _messageBacklog := [] }
  let data' := dictUpdate data
    [("temperatures", Val.list temperatures),
     ("logs", Val.list logs),
     ("messages", Val.list messages)]
  (s3, data', [_emit "current" (Val.obj data')])

/-- The method `sendHistoryData(self, data)`: `self._emit("history", data)`. -/
def sendHistoryData (s : ConnState) (data : Val) : ConnState × List Dict :=
  (s, [_emit "history" data])

/-- The method `sendUpdateTrigger(self, type, payload=None)`:
`self._emit("updateTrigger", {"type": type, "payload": payload})`.  The
Python default `payload=None` is passed explicitly as `Val.none` at the
call sites that omit it. -/
def sendUpdateTrigger (s : ConnState) (type : String) (payload : Val) :
    ConnState × List Dict :=
  (s, [_emit "updateTrigger"
        (Val.obj [("type", Val.str type), ("payload", payload)])])

/-- The method `sendFeedbackCommandOutput(self, name, output)`:
`self._emit("feedbackCommandOutput", {"name": name, "output": output})`. -/
def sendFeedbackCommandOutput (s : ConnState) (name output : Val) :
    ConnState × List Dict :=
  (s, [_emit "feedbackCommandOutput"
        (Val.obj [("name", name), ("output", output)])])

/-- The method `sendTimelapseConfig(self, timelapseConfig)`:
`self._emit("timelapse", timelapseConfig)`. -/
def sendTimelapseConfig (s : ConnState) (timelapseConfig : Val) :
    ConnState × List Dict :=
  (s, [_emit "timelapse" timelapseConfig])

/-- The method `on_message(self, message)`: `pass`. -/
def on_message (s : ConnState) (message : Val) : ConnState × List Dict :=
  (s, [])

/-- The bus handler `_onMovieDone(self, event, payload)`:
`self.sendUpdateTrigger("timelapseFiles")` (the `payload` parameter of
`sendUpdateTrigger` takes its default `None`). -/
def _onMovieDone (s : ConnState) (event : String) (payload : Val) :
    ConnState × List Dict :=
  sendUpdateTrigger s "timelapseFiles" Val.none

/-- The bus handler `_onSlicingStarted(self, event, payload)`:
`self.sendUpdateTrigger("slicingStarted", payload)`. -/
def _onSlicingStarted (s : ConnState) (event : String) (payload : Val) :
    ConnState × List Dict :=
  sendUpdateTrigger s "slicingStarted" payload

/-- The bus handler `_onSlicingDone(self, event, payload)`:
`self.sendUpdateTrigger("slicingDone", payload)`. -/
def _onSlicingDone (s : ConnState) (event : String) (payload : Val) :
    ConnState × List Dict :=
  sendUpdateTrigger s "slicingDone" payload

/-- The bus handler `_onSlicingFailed(self, event, payload)`:
`self.sendUpdateTrigger("slicingFailed", payload)`. -/
def _onSlicingFailed (s : ConnState) (event : String) (payload : Val) :
    ConnState × List Dict :=
  sendUpdateTrigger s "slicingFailed" payload

/-- The three producers a session registers with in `on_open`:
`self._printer`, `self._gcodeManager`, and the `octoprint.timelapse`
module. -/
inductive Producer where
  | printer
  | gcodeManager
  | timelapse
deriving DecidableEq

/-- The four bus handler methods a session subscribes in `on_open`. -/
inductive Handler where
  | onMovieDone
  | onSlicingStarted
  | onSlicingDone
  | onSlicingFailed
deriving DecidableEq

/-- One call `on_open` or `on_close` performs on an external collaborator,
in source order: logging, producer (un)registration, firing a bus event,
(un)subscribing a bus handler, or
`octoprint.timelapse.notifyCallbacks(octoprint.timelapse.current)` (which
calls back into the session to send the current timelapse configuration as
an immediate frame). -/
inductive SessAction where
  | logInfo (msg : String)
  | registerCallback (p : Producer)
  | unregisterCallback (p : Producer)
  | fire (event : String)
  | subscribe (topic : String) (h : Handler)
  | unsubscribe (topic : String) (h : Handler)
  | notifyCallbacks
deriving DecidableEq

/-- The body of `on_open(self, info)`, as the ordered sequence of calls it
makes (the `%` formatting of the remote address into the log message is
elided). -/
def on_open : List SessAction :=
  [SessAction.logInfo "New connection from client",
   SessAction.registerCallback Producer.printer,
   SessAction.registerCallback Producer.gcodeManager,
   SessAction.registerCallback Producer.timelapse,
   SessAction.fire "ClientOpened",
   SessAction.subscribe "MovieDone" Handler.onMovieDone,
   SessAction.subscribe "SlicingStarted" Handler.onSlicingStarted,
   SessAction.subscribe "SlicingDone" Handler.onSlicingDone,
   SessAction.subscribe "SlicingFailed" Handler.onSlicingFailed,
   SessAction.notifyCallbacks]

/-- The body of `on_close(self)`, as the ordered sequence of calls it
makes. -/
def on_close : List SessAction :=
  [SessAction.logInfo "Closed client connection",
   SessAction.unregisterCallback Producer.printer,
   SessAction.unregisterCallback Producer.gcodeManager,
   SessAction.unregisterCallback Producer.timelapse,
   SessAction.fire "ClientClosed",
   SessAction.unsubscribe "MovieDone" Handler.onMovieDone,
   SessAction.unsubscribe "SlicingStarted" Handler.onSlicingStarted,
   SessAction.unsubscribe "SlicingDone" Handler.onSlicingDone,
   SessAction.unsubscribe "SlicingFailed" Handler.onSlicingFailed]

/-- Whether an action is an `unregisterCallback` call. -/
def isUnregister : SessAction → Bool
  | SessAction.unregisterCallback _ => true
  | _ => false

/-- Whether an action is an `unsubscribe` call. -/
def isUnsubscribe : SessAction → Bool
  | SessAction.unsubscribe _ _ => true
  | _ => false

/-- Whether an action is a `registerCallback` call. -/
def isRegister : SessAction → Bool
  | SessAction.registerCallback _ => true
  | _ => false

/-- Whether an action is a `subscribe` call. -/
def isSubscribe : SessAction → Bool
  | SessAction.subscribe _ _ => true
  | _ => false

/-- CPython execution of a straight-line sequence of calls when individual
calls may raise: the calls are attempted in order; a raising call is the
last one attempted, because neither `on_open` nor `on_close` contains any
`try`/`except`, so the exception propagates and the rest of the body is
skipped. -/
def attempted (fails : SessAction → Bool) : List SessAction → List SessAction
  | [] => []
  | a :: rest => if fails a then [a] else a :: attempted fails rest

/-- One data-plane method invocation on a session (a producer callback, a
bus-handler firing, or an emit request), with its arguments. -/
inductive Op where
  | opSendCurrentData (data : Dict)
  | opSendHistoryData (data : Val)
  | opSendUpdateTrigger (type : String) (payload : Val)
  | opSendFeedbackCommandOutput (name output : Val)
  | opSendTimelapseConfig (config : Val)
  | opAddLog (data : Val)
  | opAddMessage (data : Val)
  | opAddTemperature (data : Val)
  | opOnMovieDone (event : String) (payload : Val)
  | opOnSlicingStarted (event : String) (payload : Val)
  | opOnSlicingDone (event : String) (payload : Val)
  | opOnSlicingFailed (event : String) (payload : Val)
  | opOnMessage (message : Val)

/-- Dispatch one method invocation to the corresponding method of
`PrinterStateConnection`, returning the new state and the outbound writes
the call performed. -/
def step (s : ConnState) : Op → ConnState × List Dict
  | Op.opSendCurrentData data =>
      let r := sendCurrentData s data
      (r.1, r.2.2)
  | Op.opSendHistoryData data => sendHistoryData s data
  | Op.opSendUpdateTrigger type payload => sendUpdateTrigger s type payload
  | Op.opSendFeedbackCommandOutput name output =>
      sendFeedbackCommandOutput s name output
  | Op.opSendTimelapseConfig config => sendTimelapseConfig s config
  | Op.opAddLog data => addLog s data
  | Op.opAddMessage data => addMessage s data
  | Op.opAddTemperature data => addTemperature s data
  | Op.opOnMovieDone event payload => _onMovieDone s event payload
  | Op.opOnSlicingStarted event payload => _onSlicingStarted s event payload
  | Op.opOnSlicingDone event payload => _onSlicingDone s event payload
  | Op.opOnSlicingFailed event payload => _onSlicingFailed s event payload
  | Op.opOnMessage message => on_message s message

/-- Run a sequence of method invocations from a state, collecting every
outbound write in order. -/
def runOps (s : ConnState) : List Op → ConnState × List Dict
  | [] => (s, [])
  | op :: rest =>
      let r := step s op
      let r' := runOps r.1 rest
      (r'.1, r.2 ++ r'.2)

/-- Whether an invocation is a `sendCurrentData` call (the only method that
reads the backlog buffers). -/
def isSendCurrent : Op → Bool
  | Op.opSendCurrentData _ => true
  | _ => false

/-- One producer push into a session: `addTemperature`, `addLog` or
`addMessage` with its record. -/
inductive AddEvent where
  | temp (d : Val)
  | log (d : Val)
  | msg (d : Val)

/-- Apply one producer push via the corresponding method. -/
def applyAdd (s : ConnState) : AddEvent → ConnState
  | AddEvent.temp d => (addTemperature s d).1
  | AddEvent.log d => (addLog s d).1
  | AddEvent.msg d => (addMessage s d).1

/-- Apply a sequence of producer pushes, in order. -/
def applyAdds (s : ConnState) (es : List AddEvent) : ConnState :=
  es.foldl applyAdd s

/-- The temperature records of a push sequence, in order. -/
def tempsOf (es : List AddEvent) : List Val :=
  es.filterMap fun e => match e with
    | AddEvent.temp d => some d
    | _ => Option.none

/-- The log records of a push sequence, in order. -/
def logsOf (es : List AddEvent) : List Val :=
  es.filterMap fun e => match e with
    | AddEvent.log d => some d
    | _ => Option.none

/-- The message records of a push sequence, in order. -/
def msgsOf (es : List AddEvent) : List Val :=
  es.filterMap fun e => match e with
    | AddEvent.msg d => some d
    | _ => Option.none

/-- Helper: looking up the key just set by `setKey` yields the new value. -/
theorem dlookup_setKey_self (d : Dict) (k : String) (v : Val) :
    dlookup (setKey d k v) k = some v := by
  induction d with
  | nil => simp [setKey, dlookup]
  | cons kv rest ih =>
      obtain ⟨k', v'⟩ := kv
      by_cases h : k' = k
      · simp [setKey, h, dlookup]
      · simp [setKey, h, dlookup, ih]

/-- Helper: `setKey` leaves the lookup of every other key unchanged. -/
theorem dlookup_setKey_ne (d : Dict) (k : String) (v : Val) (k' : String)
    (h : k' ≠ k) : dlookup (setKey d k v) k' = dlookup d k' := by
  induction d with
  | nil => simp [setKey, dlookup, Ne.symm h]
  | cons kv rest ih =>
      obtain ⟨k0, v0⟩ := kv
      by_cases h0 : k0 = k
      · subst h0
        simp [setKey, dlookup, Ne.symm h]
      · simp [setKey, h0, dlookup, ih]

/-- Helper: the keys after `setKey` are the old keys plus the set key. -/
theorem mem_keys_setKey (d : Dict) (k : String) (v : Val) (m : String) :
    m ∈ keys (setKey d k v) ↔ m = k ∨ m ∈ keys d := by
  induction d with
  | nil => simp [setKey, keys]
  | cons kv rest ih =>
      obtain ⟨k0, v0⟩ := kv
      by_cases h0 : k0 = k
      · subst h0
        have hs : setKey ((k0, v0) :: rest) k0 v = (k0, v) :: rest := by
          simp [setKey]
        rw [hs]
        simp only [keys, List.map_cons, List.mem_cons]
        tauto
      · have hs : setKey ((k0, v0) :: rest) k v =
            (k0, v0) :: setKey rest k v := by
          simp [setKey, h0]
        rw [hs]
        simp only [keys, List.map_cons, List.mem_cons] at ih ⊢
        tauto

/-- Helper: the temperature backlog after a push sequence is the old backlog
followed by the pushed temperature records, in push order. -/
theorem applyAdds_temperature (s : ConnState) (es : List AddEvent) :
    (applyAdds s es)._temperatureBacklog =
      s._temperatureBacklog ++ tempsOf es := by
  induction es generalizing s with
  | nil => simp [applyAdds, tempsOf]
  | cons e rest ih =>
      rw [show applyAdds s (e :: rest) = applyAdds (applyAdd s e) rest from
        rfl, ih]
      cases e <;>
        simp [applyAdd, addTemperature, addLog, addMessage, tempsOf]

/-- Helper: the log backlog after a push sequence is the old backlog followed
by the pushed log records, in push order. -/
theorem applyAdds_log (s : ConnState) (es : List AddEvent) :
    (applyAdds s es)._logBacklog = s._logBacklog ++ logsOf es := by
  induction es generalizing s with
  | nil => simp [applyAdds, logsOf]
  | cons e rest ih =>
      rw [show applyAdds s (e :: rest) = applyAdds (applyAdd s e) rest from
        rfl, ih]
      cases e <;>
        simp [applyAdd, addTemperature, addLog, addMessage, logsOf]

/-- Helper: the message backlog after a push sequence is the old backlog
followed by the pushed message records, in push order. -/
theorem applyAdds_message (s : ConnState) (es : List AddEvent) :
    (applyAdds s es)._messageBacklog = s._messageBacklog ++ msgsOf es := by
  induction es generalizing s with
  | nil => simp [applyAdds, msgsOf]
  | cons e rest ih =>
      rw [show applyAdds s (e :: rest) = applyAdds (applyAdd s e) rest from
        rfl, ih]
      cases e <;>
        simp [applyAdd, addTemperature, addLog, addMessage, msgsOf]

/-- C1: after any sequence of producer pushes into a session whose buffers
were empty (freshly constructed or just drained), one call
`sendCurrentData(extraState)` emits exactly one outbound "current" frame;
its payload binds "temperatures", "logs" and "messages" to exactly the
records pushed into the matching buffer since the last drain, in push order
with no loss or duplication (a buffer with no pushes contributing `[]`),
and keeps every key of `extraState`; immediately afterwards all three
backlog buffers are empty. -/
theorem C1_sendCurrentData_drains_once (base : ConnState)
    (es : List AddEvent) (data : Dict)
    (hT : base._temperatureBacklog = []) (hL : base._logBacklog = [])
    (hM : base._messageBacklog = []) :
    ∃ payload : Dict,
      sendCurrentData (applyAdds base es) data =
        (initState, payload, [[("current", Val.obj payload)]]) ∧
      dlookup payload "temperatures" = some (Val.list (tempsOf es)) ∧
      dlookup payload "logs" = some (Val.list (logsOf es)) ∧
      dlookup payload "messages" = some (Val.list (msgsOf es)) ∧
      (∀ k, k ∈ keys data → k ∈ keys payload) := by
  have ht := applyAdds_temperature base es
  have hl := applyAdds_log base es
  have hm := applyAdds_message base es
  rw [hT, List.nil_append] at ht
  rw [hL, List.nil_append] at hl
  rw [hM, List.nil_append] at hm
  refine ⟨dictUpdate data
    [("temperatures", Val.list (tempsOf es)),
     ("logs", Val.list (logsOf es)),
     ("messages", Val.list (msgsOf es))], ?_, ?_, ?_, ?_, ?_⟩
  · simp [sendCurrentData, ht, hl, hm, _emit, initState]
  · have hu : dictUpdate data
        [("temperatures", Val.list (tempsOf es)),
         ("logs", Val.list (logsOf es)),
         ("messages", Val.list (msgsOf es))] =
        setKey (setKey (setKey data "temperatures" (Val.list (tempsOf es)))
          "logs" (Val.list (logsOf es))) "messages"
          (Val.list (msgsOf es)) := by
      simp [dictUpdate]
    rw [hu, dlookup_setKey_ne _ _ _ _ (by decide),
      dlookup_setKey_ne _ _ _ _ (by decide), dlookup_setKey_self]
  · have hu : dictUpdate data
        [("temperatures", Val.list (tempsOf es)),
         ("logs", Val.list (logsOf es)),
         ("messages", Val.list (msgsOf es))] =
        setKey (setKey (setKey data "temperatures" (Val.list (tempsOf es)))
          "logs" (Val.list (logsOf es))) "messages"
          (Val.list (msgsOf es)) := by
      simp [dictUpdate]
    rw [hu, dlookup_setKey_ne _ _ _ _ (by decide), dlookup_setKey_self]
  · have hu : dictUpdate data
        [("temperatures", Val.list (tempsOf es)),
         ("logs", Val.list (logsOf es)),
         ("messages", Val.list (msgsOf es))] =
        setKey (setKey (setKey data "temperatures" (Val.list (tempsOf es)))
          "logs" (Val.list (logsOf es))) "messages"
          (Val.list (msgsOf es)) := by
      simp [dictUpdate]
    rw [hu, dlookup_setKey_self]
  · intro k hk
    simp only [dictUpdate, List.foldl, mem_keys_setKey]
    tauto

/-- Witness for C1: the spec's scenario — three `addTemperature({t:200})`
pushes into a fresh session, then one `sendCurrentData({state:"printing"})`;
the payload carries the three samples, empty logs and messages, and the
caller's `state` key. -/
theorem C1_witness :
    initState._temperatureBacklog = [] ∧
    ∃ payload : Dict,
      sendCurrentData
          (applyAdds initState
            [AddEvent.temp (Val.obj [("t", Val.num 200)]),
             AddEvent.temp (Val.obj [("t", Val.num 200)]),
             AddEvent.temp (Val.obj [("t", Val.num 200)])])
          [("state", Val.str "printing")] =
        (initState, payload, [[("current", Val.obj payload)]]) ∧
      dlookup payload "temperatures" =
        some (Val.list
          [Val.obj [("t", Val.num 200)], Val.obj [("t", Val.num 200)],
           Val.obj [("t", Val.num 200)]]) ∧
      dlookup payload "logs" = some (Val.list []) ∧
      dlookup payload "messages" = some (Val.list []) ∧
      "state" ∈ keys payload := by
  refine ⟨rfl, ?_⟩
  obtain ⟨payload, h1, h2, h3, h4, h5⟩ :=
    C1_sendCurrentData_drains_once initState
      [AddEvent.temp (Val.obj [("t", Val.num 200)]),
       AddEvent.temp (Val.obj [("t", Val.num 200)]),
       AddEvent.temp (Val.obj [("t", Val.num 200)])]
      [("state", Val.str "printing")] rfl rfl rfl
  refine ⟨payload, h1, ?_, ?_, ?_, ?_⟩
  · simpa [tempsOf] using h2
  · simpa [logsOf] using h3
  · simpa [msgsOf] using h4
  · exact h5 "state" (by simp [keys])

/-- C10: `sendCurrentData` updates the caller-supplied `data` dict in place —
the emitted "current" payload is exactly the caller's mapping after the
call — and the drained buffer contents overwrite any "temperatures",
"logs" or "messages" binding the caller had put there. -/
theorem C10_sendCurrentData_mutates_extraState (s : ConnState) (data : Dict)
    (v : Val) (hv : ("temperatures", v) ∈ data) :
    (sendCurrentData s data).2.2 =
      [[("current", Val.obj (sendCurrentData s data).2.1)]] ∧
    dlookup (sendCurrentData s data).2.1 "temperatures" =
      some (Val.list s._temperatureBacklog) ∧
    dlookup (sendCurrentData s data).2.1 "logs" =
      some (Val.list s._logBacklog) ∧
    dlookup (sendCurrentData s data).2.1 "messages" =
      some (Val.list s._messageBacklog) := by
  have hu : (sendCurrentData s data).2.1 =
      setKey (setKey (setKey data "temperatures"
        (Val.list s._temperatureBacklog)) "logs"
        (Val.list s._logBacklog)) "messages"
        (Val.list s._messageBacklog) := by
    simp [sendCurrentData, dictUpdate]
  refine ⟨?_, ?_, ?_, ?_⟩
  · simp [sendCurrentData, _emit]
  · rw [hu, dlookup_setKey_ne _ _ _ _ (by decide),
      dlookup_setKey_ne _ _ _ _ (by decide), dlookup_setKey_self]
  · rw [hu, dlookup_setKey_ne _ _ _ _ (by decide), dlookup_setKey_self]
  · rw [hu, dlookup_setKey_self]

/-- Witness for C10: a caller passes `{"temperatures": "old"}` to a session
holding one buffered sample; the emitted payload is the caller's own dict
with "temperatures" silently overwritten by the drained backlog. -/
theorem C10_witness :
    (("temperatures", Val.str "old") ∈
      ([("temperatures", Val.str "old")] : Dict)) ∧
    dlookup (sendCurrentData
        { _temperatureBacklog := [Val.num 200], _logBacklog := [],
          _messageBacklog := [] }
        [("temperatures", Val.str "old")]).2.1 "temperatures" =
      some (Val.list [Val.num 200]) :=
  ⟨List.mem_singleton.mpr rfl,
   (C10_sendCurrentData_mutates_extraState
      { _temperatureBacklog := [Val.num 200], _logBacklog := [],
        _messageBacklog := [] }
      [("temperatures", Val.str "old")] (Val.str "old")
      (List.mem_singleton.mpr rfl)).2.1⟩

/-- C6: `sendHistoryData`, `sendUpdateTrigger`, `sendFeedbackCommandOutput`
and `sendTimelapseConfig` each perform exactly one write, a tagged envelope
pairing the operation's tag with its argument as payload, and none of them
reads or changes any backlog buffer (the session state is returned
untouched). -/
theorem C6_passthrough_writers_single_tagged_write (s : ConnState)
    (data : Val) (type : String) (payload : Val) (name output : Val)
    (config : Val) :
    sendHistoryData s data = (s, [[("history", data)]]) ∧
    sendUpdateTrigger s type payload =
      (s, [[("updateTrigger",
             Val.obj [("type", Val.str type), ("payload", payload)])]]) ∧
    sendFeedbackCommandOutput s name output =
      (s, [[("feedbackCommandOutput",
             Val.obj [("name", name), ("output", output)])]]) ∧
    sendTimelapseConfig s config = (s, [[("timelapse", config)]]) :=
  ⟨rfl, rfl, rfl, rfl⟩

/-- C7: every outbound unit produced by any session method is a single
object with exactly one top-level key, and that key is one of the five
frame tags "current", "history", "updateTrigger", "feedbackCommandOutput",
"timelapse". -/
theorem C7_wire_framing_single_tagged_key (s : ConnState) (op : Op)
    (w : Dict) (hw : w ∈ (step s op).2) :
    ∃ tag payload, w = [(tag, payload)] ∧
      (tag = "current" ∨ tag = "history" ∨ tag = "updateTrigger" ∨
       tag = "feedbackCommandOutput" ∨ tag = "timelapse") := by
  cases op with
  | opSendCurrentData data =>
      simp [step, sendCurrentData, _emit] at hw
      exact ⟨"current", _, hw, by simp⟩
  | opSendHistoryData data =>
      simp [step, sendHistoryData, _emit] at hw
      exact ⟨"history", _, hw, by simp⟩
  | opSendUpdateTrigger type payload =>
      simp [step, sendUpdateTrigger, _emit] at hw
      exact ⟨"updateTrigger", _, hw, by simp⟩
  | opSendFeedbackCommandOutput name output =>
      simp [step, sendFeedbackCommandOutput, _emit] at hw
      exact ⟨"feedbackCommandOutput", _, hw, by simp⟩
  | opSendTimelapseConfig config =>
      simp [step, sendTimelapseConfig, _emit] at hw
      exact ⟨"timelapse", _, hw, by simp⟩
  | opAddLog data => simp [step, addLog] at hw
  | opAddMessage data => simp [step, addMessage] at hw
  | opAddTemperature data => simp [step, addTemperature] at hw
  | opOnMovieDone event payload =>
      simp [step, _onMovieDone, sendUpdateTrigger, _emit] at hw
      exact ⟨"updateTrigger", _, hw, by simp⟩
  | opOnSlicingStarted event payload =>
      simp [step, _onSlicingStarted, sendUpdateTrigger, _emit] at hw
      exact ⟨"updateTrigger", _, hw, by simp⟩
  | opOnSlicingDone event payload =>
      simp [step, _onSlicingDone, sendUpdateTrigger, _emit] at hw
      exact ⟨"updateTrigger", _, hw, by simp⟩
  | opOnSlicingFailed event payload =>
      simp [step, _onSlicingFailed, sendUpdateTrigger, _emit] at hw
      exact ⟨"updateTrigger", _, hw, by simp⟩
  | opOnMessage message => simp [step, on_message] at hw

/-- Witness for C7: the single write of a concrete `sendHistoryData` call is
a one-key "history" envelope. -/
theorem C7_witness :
    [("history", Val.str "h")] ∈
      (step initState (Op.opSendHistoryData (Val.str "h"))).2 ∧
    ∃ tag payload,
      ([("history", Val.str "h")] : Dict) = [(tag, payload)] ∧
      (tag = "current" ∨ tag = "history" ∨ tag = "updateTrigger" ∨
       tag = "feedbackCommandOutput" ∨ tag = "timelapse") :=
  ⟨List.mem_singleton.mpr rfl,
   C7_wire_framing_single_tagged_key initState
     (Op.opSendHistoryData (Val.str "h")) [("history", Val.str "h")]
     (List.mem_singleton.mpr rfl)⟩

/-- C8: a session subscribes `_onMovieDone` to the "MovieDone" bus topic on
open, and that handler's firing emits exactly one outbound "updateTrigger"
frame whose payload has type "timelapseFiles". -/
theorem C8_movieDone_single_updateTrigger :
    SessAction.subscribe "MovieDone" Handler.onMovieDone ∈ on_open ∧
    ∀ (s : ConnState) (event : String) (payload : Val),
      _onMovieDone s event payload =
        (s, [[("updateTrigger",
               Val.obj [("type", Val.str "timelapseFiles"),
                        ("payload", Val.none)])]]) := by
  refine ⟨by decide, ?_⟩
  intro s event payload
  rfl

/-- Helper: the writes of any method other than `sendCurrentData` do not
depend on the session state — only `sendCurrentData` reads the buffers. -/
theorem step_writes_ignore_state (s1 s2 : ConnState) (op : Op)
    (h : isSendCurrent op = false) : (step s1 op).2 = (step s2 op).2 := by
  cases op <;>
    simp [isSendCurrent] at h ⊢ <;>
    rfl

/-- Helper: over any invocation sequence containing no `sendCurrentData`
call, the outbound writes are the same from any two starting states; in
particular nothing sitting in a backlog buffer can reach the wire. -/
theorem runOps_writes_ignore_state (ops : List Op) (s1 s2 : ConnState)
    (h : ops.all (fun op => !isSendCurrent op) = true) :
    (runOps s1 ops).2 = (runOps s2 ops).2 := by
  induction ops generalizing s1 s2 with
  | nil => rfl
  | cons op rest ih =>
      simp only [List.all_cons, Bool.and_eq_true, Bool.not_eq_true'] at h
      show ((step s1 op).2 ++ (runOps (step s1 op).1 rest).2) =
        ((step s2 op).2 ++ (runOps (step s2 op).1 rest).2)
      rw [step_writes_ignore_state s1 s2 op h.1,
        ih (step s1 op).1 (step s2 op).1 (by simpa using h.2)]

/-- C9: a stray `addLog` (likewise `addTemperature`, `addMessage`) on a
session in any state — a closed one included — returns normally, performs
no outbound write, and merely appends the record to the internal backlog;
and as long as no `sendCurrentData` call follows (after `on_close` the
producers that would issue one are unregistered), the subsequent outbound
traffic is exactly what it would have been had the record never been
pushed: no frame is ever emitted for it. -/
theorem C9_stray_add_after_close_harmless (s : ConnState) (d : Val)
    (ops : List Op) (h : ops.all (fun op => !isSendCurrent op) = true) :
    (addLog s d).2 = [] ∧ (addTemperature s d).2 = [] ∧
    (addMessage s d).2 = [] ∧
    (addLog s d).1._logBacklog = s._logBacklog ++ [d] ∧
    (runOps (addLog s d).1 ops).2 = (runOps s ops).2 :=
  ⟨rfl, rfl, rfl, rfl,
   runOps_writes_ignore_state ops (addLog s d).1 s h⟩

/-- Witness for C9: a record pushed by `addLog` into a drained session
followed by a `sendHistoryData` call yields the very same outbound traffic
as if the push had never happened. -/
theorem C9_witness :
    (([Op.opSendHistoryData (Val.str "h")] : List Op).all
      (fun op => !isSendCurrent op) = true) ∧
    (addLog initState (Val.str "stray")).2 = [] ∧
    (runOps (addLog initState (Val.str "stray")).1
        [Op.opSendHistoryData (Val.str "h")]).2 =
      (runOps initState [Op.opSendHistoryData (Val.str "h")]).2 := by
  refine ⟨by decide, ?_, ?_⟩
  · exact (C9_stray_add_after_close_harmless initState (Val.str "stray")
      [Op.opSendHistoryData (Val.str "h")] (by decide)).1
  · exact (C9_stray_add_after_close_harmless initState (Val.str "stray")
      [Op.opSendHistoryData (Val.str "h")] (by decide)).2.2.2.2

/-- C5 counterexample: the claim says a transport write failure is swallowed
and logged inside the session; but `_emit` wraps the send in no handler at
all, so a failing transport's error comes straight back out of the
session's emit path. -/
theorem C5_counterexample :
    _emitSend (fun _ => Except.error "dead connection") "current"
      (Val.obj []) = Except.error "dead connection" := rfl

/-- C5 (amended): `_emit` performs the transport write with no exception
handling and no logging of its own; whatever failure the transport send
raises propagates unchanged to the caller of the emit operation.  (Not
raising into producer threads on a dead connection is the transport
layer's doing, not the session's.) -/
theorem C5_emit_propagates_transport_failure {ε : Type}
    (send : Dict → Except ε Unit) (type : String) (payload : Val) (e : ε)
    (h : send [(type, payload)] = Except.error e) :
    _emitSend send type payload = Except.error e := by
  simpa [_emitSend, _emit] using h

/-- Witness for C5 (amended): a concrete always-failing transport's error is
returned unchanged by `_emit`. -/
theorem C5_witness :
    _emitSend (fun _ => Except.error "socket closed") "history" Val.none =
      Except.error "socket closed" :=
  C5_emit_propagates_transport_failure
    (fun _ => Except.error "socket closed") "history" Val.none
    "socket closed" rfl

/-- Helper: every (topic, handler) pair subscribed in `on_open` is
unsubscribed in `on_close`. -/
theorem subscribed_topics_unsubscribed (t : String) (h : Handler)
    (hs : SessAction.subscribe t h ∈ on_open) :
    SessAction.unsubscribe t h ∈ on_close := by
  simp only [on_open, List.mem_cons, List.not_mem_nil, or_false] at hs
  rcases hs with h1 | h1 | h1 | h1 | h1 | h1 | h1 | h1 | h1 | h1 <;>
    first
      | (obtain ⟨rfl, rfl⟩ := h1
         decide)
      | (simp at h1)

/-- Helper: a straight-line body in which no call fails is attempted in
full. -/
theorem attempted_of_no_failure (fails : SessAction → Bool)
    (l : List SessAction) (h : ∀ a ∈ l, fails a = false) :
    attempted fails l = l := by
  induction l with
  | nil => rfl
  | cons a rest ih =>
      simp only [attempted, h a (List.mem_cons_self a rest), if_neg,
        Bool.false_eq_true, ite_false, List.cons.injEq, true_and]
      exact ih fun b hb => h b (List.mem_cons_of_mem a hb)

/-- C2 counterexample: the claim orders `on_close` as unregister →
unsubscribe → fire "ClientClosed"; but in the code the "ClientClosed" event
is fired (position 4) before any `unsubscribe` call (positions 5–8). -/
theorem C2_counterexample :
    ¬ ((∀ i j : Fin on_close.length,
          isUnregister (on_close.get i) = true →
          isUnsubscribe (on_close.get j) = true → i.val < j.val) ∧
       (∀ i j : Fin on_close.length,
          isUnsubscribe (on_close.get i) = true →
          on_close.get j = SessAction.fire "ClientClosed" →
          i.val < j.val)) := by
  decide

/-- C2 (amended): `on_close` unregisters from every producer, then fires the
"ClientClosed" bus event, and only then unsubscribes every bus topic it
subscribed to on open. -/
theorem C2_onClose_order :
    (SessAction.unregisterCallback Producer.printer ∈ on_close ∧
     SessAction.unregisterCallback Producer.gcodeManager ∈ on_close ∧
     SessAction.unregisterCallback Producer.timelapse ∈ on_close) ∧
    (∀ i j : Fin on_close.length,
       isUnregister (on_close.get i) = true →
       on_close.get j = SessAction.fire "ClientClosed" → i.val < j.val) ∧
    (∀ i j : Fin on_close.length,
       on_close.get i = SessAction.fire "ClientClosed" →
       isUnsubscribe (on_close.get j) = true → i.val < j.val) ∧
    (∀ (t : String) (h : Handler),
       SessAction.subscribe t h ∈ on_open →
       SessAction.unsubscribe t h ∈ on_close) := by
  refine ⟨by decide, by decide, by decide, ?_⟩
  exact subscribed_topics_unsubscribed

/-- Witness for C2 (amended): concrete positions — the `printer` unregister
at index 1 precedes the fire at index 4, which precedes the "MovieDone"
unsubscribe at index 5. -/
theorem C2_witness :
    on_close.get ⟨4, by decide⟩ = SessAction.fire "ClientClosed" ∧
    (1 : Nat) < 4 ∧ (4 : Nat) < 5 :=
  ⟨by decide,
   C2_onClose_order.2.1 ⟨1, by decide⟩ ⟨4, by decide⟩ (by decide)
     (by decide),
   C2_onClose_order.2.2.1 ⟨4, by decide⟩ ⟨5, by decide⟩ (by decide)
     (by decide)⟩

/-- C3 counterexample: the claim orders `on_open` as register → subscribe →
send timelapse config → fire "ClientOpened" last; but in the code the
"ClientOpened" event is fired (position 4) before the subscriptions
(positions 5–8) and the timelapse-config push (position 9). -/
theorem C3_counterexample :
    ¬ ((∀ i j : Fin on_open.length,
          isRegister (on_open.get i) = true →
          isSubscribe (on_open.get j) = true → i.val < j.val) ∧
       (∀ i j : Fin on_open.length,
          isSubscribe (on_open.get i) = true →
          on_open.get j = SessAction.notifyCallbacks → i.val < j.val) ∧
       (∀ i j : Fin on_open.length,
          on_open.get i = SessAction.notifyCallbacks →
          on_open.get j = SessAction.fire "ClientOpened" →
          i.val < j.val)) := by
  decide

/-- C3 (amended): `on_open` registers with every producer, then fires the
"ClientOpened" bus event, then subscribes its four bus topics, and last
requests the timelapse-config push
(`octoprint.timelapse.notifyCallbacks(...)`), which sends the current
recording configuration as an immediate frame. -/
theorem C3_onOpen_order :
    (SessAction.registerCallback Producer.printer ∈ on_open ∧
     SessAction.registerCallback Producer.gcodeManager ∈ on_open ∧
     SessAction.registerCallback Producer.timelapse ∈ on_open) ∧
    (SessAction.subscribe "MovieDone" Handler.onMovieDone ∈ on_open ∧
     SessAction.subscribe "SlicingStarted" Handler.onSlicingStarted ∈
       on_open ∧
     SessAction.subscribe "SlicingDone" Handler.onSlicingDone ∈ on_open ∧
     SessAction.subscribe "SlicingFailed" Handler.onSlicingFailed ∈
       on_open) ∧
    SessAction.notifyCallbacks ∈ on_open ∧
    (∀ i j : Fin on_open.length,
       isRegister (on_open.get i) = true →
       on_open.get j = SessAction.fire "ClientOpened" → i.val < j.val) ∧
    (∀ i j : Fin on_open.length,
       on_open.get i = SessAction.fire "ClientOpened" →
       isSubscribe (on_open.get j) = true → i.val < j.val) ∧
    (∀ i j : Fin on_open.length,
       isSubscribe (on_open.get i) = true →
       on_open.get j = SessAction.notifyCallbacks → i.val < j.val) := by
  refine ⟨by decide, by decide, by decide, by decide, by decide, by decide⟩

/-- Witness for C3 (amended): concrete positions — the `printer` register at
index 1 precedes the fire at index 4, which precedes the "MovieDone"
subscribe at index 5, which precedes the timelapse-config push at
index 9. -/
theorem C3_witness :
    on_open.get ⟨4, by decide⟩ = SessAction.fire "ClientOpened" ∧
    (1 : Nat) < 4 ∧ (4 : Nat) < 5 ∧ (5 : Nat) < 9 :=
  ⟨by decide,
   C3_onOpen_order.2.2.2.1 ⟨1, by decide⟩ ⟨4, by decide⟩ (by decide)
     (by decide),
   C3_onOpen_order.2.2.2.2.1 ⟨4, by decide⟩ ⟨5, by decide⟩ (by decide)
     (by decide),
   C3_onOpen_order.2.2.2.2.2 ⟨5, by decide⟩ ⟨9, by decide⟩ (by decide)
     (by decide)⟩

/-- C4 counterexample: `on_close` contains no `try`/`except`, so a failure
in the first producer unregistration aborts the rest of the cleanup: the
`gcodeManager` unregistration, though present in `on_close`, is never
attempted. -/
theorem C4_counterexample :
    SessAction.unregisterCallback Producer.gcodeManager ∈ on_close ∧
    SessAction.unregisterCallback Producer.gcodeManager ∉
      attempted
        (fun a => a == SessAction.unregisterCallback Producer.printer)
        on_close := by
  decide

/-- C4 (amended): when no cleanup step raises, `on_close` runs in full and
unregisters from every producer and unsubscribes from every topic the
session subscribed to on open; but the cleanup is not failure-tolerant —
there is no log-and-continue, so a raising step skips all later steps. -/
theorem C4_onClose_cleanup_complete_without_failures :
    (∀ fails : SessAction → Bool,
       (∀ a ∈ on_close, fails a = false) →
       ∀ a ∈ on_close, a ∈ attempted fails on_close) ∧
    (∀ p : Producer, SessAction.unregisterCallback p ∈ on_close) ∧
    (∀ (t : String) (h : Handler),
       SessAction.subscribe t h ∈ on_open →
       SessAction.unsubscribe t h ∈ on_close) := by
  refine ⟨?_, ?_, subscribed_topics_unsubscribed⟩
  · intro fails hf a ha
    rw [attempted_of_no_failure fails on_close hf]
    exact ha
  · intro p
    cases p <;> decide

/-- Witness for C4 (amended): under a failure-free run the `timelapse`
unregistration is attempted, and the `MovieDone` unsubscription is in
`on_close` because the matching subscription is in `on_open`. -/
theorem C4_witness :
    SessAction.unregisterCallback Producer.timelapse ∈
      attempted (fun _ => false) on_close ∧
    SessAction.unsubscribe "MovieDone" Handler.onMovieDone ∈ on_close :=
  ⟨C4_onClose_cleanup_complete_without_failures.1 (fun _ => false)
     (fun _ _ => rfl)
     (SessAction.unregisterCallback Producer.timelapse) (by decide),
   C4_onClose_cleanup_complete_without_failures.2.2 "MovieDone"
     Handler.onMovieDone (by decide)⟩
